import Mathlib

/-
Verification of the Wish-Mail repository: a birthday-reminder email job
(src/app.py) and a roster admin panel (src/index.py) over one employees table.

The embedding is shallow: each Python function of interest becomes a Lean
definition over explicit state (the employees table as a `List Employee`,
the mock store as a `List MockEmployee`).  External effects (SMTP delivery,
the psycopg2 connection, uuid generation) are parameters of the embedded
functions; database commit/rollback is modelled by threading the committed
table state and an explicit pending-update list, exactly following the
commit/rollback calls in the source.
-/

/-- Calendar date as stored in the `employees` table and produced by
`datetime.now()` in src/app.py: year, month and day as integers (SQL
`EXTRACT` also yields integers). -/
structure Date where
  year : Int
  month : Int
  day : Int
  deriving DecidableEq, Repr

/-- One row of the `employees` table, with the columns the two programs
touch: `id` (primary key), `name`, `email`, `birthday` and
`last_wished_year`.  `last_wished_year` is nullable — the notifier's query
tests `last_wished_year IS NULL` — so it is an `Option Int`. -/
structure Employee where
  id : Nat
  name : String
  email : String
  birthday : Date
  last_wished_year : Option Int
  deriving DecidableEq, Repr

/-- The notifier job's configuration, read from the environment in
src/app.py lines 21-25: `os.getenv` yields `None` when the variable is
absent.  (SMTP_SERVER and SMTP_PORT have defaults and are never checked.) -/
structure Config where
  pg_conn_string : Option String
  email_user : Option String
  email_password : Option String
  deriving DecidableEq, Repr

/-- Python truthiness of an optional environment string, as tested by
`all([PG_CONN_STRING, EMAIL_USER, EMAIL_PASSWORD])` (src/app.py line 83):
`None` and the empty string are falsy. -/
def truthy : Option String → Bool
  | none => false
  | some s => !s.isEmpty

/-- The guard at src/app.py line 83: all three required configuration
values are present (truthy). -/
def configOk (cfg : Config) : Bool :=
  truthy cfg.pg_conn_string && truthy cfg.email_user && truthy cfg.email_password

/-- The eligibility selection of src/app.py lines 98-106 (the variable
`employees_to_wish` receives its result): rows of `employees` where
`EXTRACT(MONTH FROM birthday) = today.month AND EXTRACT(DAY FROM birthday)
= today.day AND (last_wished_year IS NULL OR last_wished_year !=
current_year)`, with `current_year = today.year`. -/
def employees_to_wish (today : Date) (employees : List Employee) : List Employee :=
  employees.filter (fun e =>
    decide (e.birthday.month = today.month) &&
    decide (e.birthday.day = today.day) &&
    (decide (e.last_wished_year = none) || decide (e.last_wished_year ≠ some today.year)))

/-- The `UPDATE employees SET last_wished_year = %s WHERE id = %s` of
src/app.py lines 127-131, applied to the table state: every row whose `id`
matches gets `last_wished_year` set. -/
def update_last_wished (year : Int) (empId : Nat) (db : List Employee) : List Employee :=
  db.map (fun e => if e.id = empId then { e with last_wished_year := some year } else e)

/-- `conn.commit()` applied to a list of pending `UPDATE`s: each pending
update becomes durable in the committed table state. -/
def commit_pending (year : Int) (pending : List Nat) (db : List Employee) : List Employee :=
  pending.foldl (fun d i => update_last_wished year i d) db

/-- State threaded through the per-employee loop of src/app.py lines
122-138: `db` is the committed table state, `pending` the ids of
`UPDATE`s executed but not yet committed on the connection, `commits` the
batches of updates made durable by each `conn.commit()` call, `sent` and
`attempted` the employees whose `sendmail` succeeded / was attempted,
`aborted` whether an exception escaped the loop (to the outer `except` of
lines 144-147). -/
structure LoopState where
  db : List Employee
  wishes_sent_count : Nat
  sent : List Nat
  attempted : List Nat
  commits : List (List Nat)
  pending : List Nat
  aborted : Bool
  deriving DecidableEq, Repr

/-- The `for employee_id, name, email in employees_to_wish:` loop of
src/app.py lines 122-138.  `sendOk e` is the outcome `create_and_send_email`
(lines 46-77) reports for the employee with id `e`: it returns `True` when
`smtp_obj.sendmail` raised nothing and `False` otherwise (the exception is
caught inside `create_and_send_email`).  `commitFault e` injects a database
exception out of the `cursor.execute`/`conn.commit` pair for that record
(lines 132-134); such an exception is caught only by the outer handler, so
the loop stops there and the uncommitted update is discarded when the
connection closes. -/
def process_employees (year : Int) (sendOk : Nat → Bool) (commitFault : Nat → Bool) :
    List Employee → LoopState → LoopState
  | [], s => s
  | e :: rest, s =>
    let s1 : LoopState := { s with attempted := s.attempted ++ [e.id] }
    if sendOk e.id then
      -- cursor.execute(update_query, ...); wishes_sent_count += 1
      let s2 : LoopState := { s1 with
        pending := s1.pending ++ [e.id],
        wishes_sent_count := s1.wishes_sent_count + 1,
        sent := s1.sent ++ [e.id] }
      if commitFault e.id then
        { s2 with aborted := true }
      else
        -- conn.commit()
        process_employees year sendOk commitFault rest
          { s2 with db := commit_pending year s2.pending s2.db,
                    commits := s2.commits ++ [s2.pending], pending := [] }
    else
      -- conn.rollback()
      process_employees year sendOk commitFault rest { s1 with pending := [] }

/-- Everything observable when `run_birthday_wisher_demo` returns: the
committed table state, the printed success count, which employees were
mailed / attempted, which updates each commit made durable, and whether
each resource was opened and closed. -/
structure RunResult where
  roster : List Employee
  wishes_sent_count : Nat
  sent : List Nat
  attempted : List Nat
  commits : List (List Nat)
  db_opened : Bool
  db_closed : Bool
  smtp_opened : Bool
  smtp_closed : Bool
  config_error : Bool
  deriving DecidableEq, Repr

/-- src/app.py lines 81-156, `run_birthday_wisher_demo`, over a table
state `db`.  `connectOk` is whether `psycopg2.connect` succeeds (line 34:
on failure nothing was opened, the `finally` of `db_connect` closes
nothing and the outer handler catches the re-raised error); `loginOk`
whether `starttls`/`login` succeed after the `smtplib.SMTP` constructor
opened the connection (lines 116-118: on failure the exception is caught
at lines 144-147 and `smtp_obj.quit()` on line 141 never runs);
`sendOk`/`commitFault` are as in `process_employees`.  The `with
db_connect()` context manager guarantees `conn.close()` on every path once
the connection was opened; `smtp_obj.quit()` runs only when the loop
finishes without an escaping exception. -/
def run_birthday_wisher_demo (cfg : Config) (today : Date) (db : List Employee)
    (connectOk : Bool) (loginOk : Bool) (sendOk : Nat → Bool) (commitFault : Nat → Bool) :
    RunResult :=
  if configOk cfg = false then
    -- line 83-85: "CRITICAL: Missing required environment variables"; return
    ⟨db, 0, [], [], [], false, false, false, false, true⟩
  else if connectOk = false then
    ⟨db, 0, [], [], [], false, false, false, false, false⟩
  else
    let eligible := employees_to_wish today db
    if eligible.isEmpty then
      -- lines 110-112: "No eligible employees found. Exiting."
      ⟨db, 0, [], [], [], true, true, false, false, false⟩
    else if loginOk = false then
      ⟨db, 0, [], [], [], true, true, true, false, false⟩
    else
      let s := process_employees today.year sendOk commitFault eligible
        ⟨db, 0, [], [], [], [], false⟩
      ⟨s.db, s.wishes_sent_count, s.sent, s.attempted, s.commits, true, true, true,
        !s.aborted, false⟩
/-- The table state `db` records the employee with id `i` as wished in
year `y`: some row with that id has `last_wished_year = y`. -/
def marked_with (db : List Employee) (i : Nat) (y : Int) : Prop :=
  ∃ x ∈ db, x.id = i ∧ x.last_wished_year = some y

/-- A fully populated configuration, for concrete runs. -/
def cfgDemo : Config := ⟨some "postgres", some "user@host", some "secret"⟩

/-- A configuration whose EMAIL_PASSWORD is absent, for concrete runs. -/
def cfgMissing : Config := ⟨some "postgres", some "user@host", none⟩

/-- A concrete `today` (May 1st, 2024) for concrete runs. -/
def todayDemo : Date := ⟨2024, 5, 1⟩

/-- Concrete roster: three employees whose birthday is May 1st; A was last
wished in 1900, B never (NULL), C already in 2023. -/
def empA : Employee := ⟨1, "A", "a@x.com", ⟨1990, 5, 1⟩, some 1900⟩

def empB : Employee := ⟨2, "B", "b@x.com", ⟨1991, 5, 1⟩, none⟩

def empC : Employee := ⟨3, "C", "c@x.com", ⟨1992, 5, 1⟩, some 2023⟩

def dbDemo : List Employee := [empA, empB, empC]

/-- A send outcome where delivery to employee 2 (B) fails and every other
delivery succeeds. -/
def sendOkDemo : Nat → Bool := fun i => decide (i ≠ 2)

/-- An entry of the in-memory (mock) store of src/index.py: the dicts of
`st.session_state.mock_employees` (lines 26-29).  `id` is a uuid string,
and `last_wished_year` is always a plain integer (the store seeds and
inserts with 1900). -/
structure MockEmployee where
  id : String
  name : String
  email : String
  birthday : Date
  last_wished_year : Int
  deriving DecidableEq, Repr

/-- Modelled from the spec: the durable `employees` table's schema is not
created anywhere under src/ (`init_real_db`, which its docstring says
should ensure it, performs no CREATE TABLE — see `init_real_db` below), so
the column default the real-backend INSERTs rely on is taken from the
spec's data model: `last_wished_year` "defaults to a sentinel year (1900)
meaning never wished". -/
def table_default_last_wished_year : Option Int := some 1900

/-- src/index.py lines 127-157, `add_employee`, mock branch (lines
129-136): if any stored dict has this email, report an error and return
False; otherwise append a fresh dict (uuid `freshId`) with
`last_wished_year = 1900` and return True.  Result is (returned boolean,
store afterwards). -/
def add_employee_mock (freshId name email : String) (birthday : Date)
    (mock_employees : List MockEmployee) : Bool × List MockEmployee :=
  if mock_employees.any (fun emp => decide (emp.email = email)) then
    (false, mock_employees)
  else
    (true, mock_employees ++ [⟨freshId, name, email, birthday, 1900⟩])

/-- src/index.py lines 137-157, `add_employee`, real branch: `INSERT INTO
employees (name, email, birthday) VALUES (%s, %s, %s) ON CONFLICT (email)
DO UPDATE SET name = EXCLUDED.name, birthday = EXCLUDED.birthday`, then
commit and return True.  On conflict every row with that email (the
unique key) keeps its id and `last_wished_year` and takes the new name and
birthday; otherwise a fresh row (id `newId`, assigned by the database) is
appended with the schema default for `last_wished_year`.  The except
branch (rollback, return False) fires only on storage faults, which this
pure model does not inject. -/
def add_employee_real (newId : Nat) (name email : String) (birthday : Date)
    (table : List Employee) : Bool × List Employee :=
  if table.any (fun r => decide (r.email = email)) then
    (true, table.map (fun r =>
      if r.email = email then { r with name := name, birthday := birthday } else r))
  else
    (true, table ++ [⟨newId, name, email, birthday, table_default_last_wished_year⟩])

/-- An input row of the bulk-upload DataFrame (src/index.py lines
159-180) after the external parsing the source delegates to pandas:
`email = none` stands for a missing (NaN) email dropped by
`dropna(subset=['email'])`, and `birthday = none` for a date
`pd.to_datetime(..., errors='coerce')` could not parse (NaT), dropped by
`dropna(subset=['birthday'])`. -/
structure CsvRow where
  name : String
  email : Option String
  birthday : Option Date
  deriving DecidableEq, Repr

/-- src/index.py lines 170-180: the `data_to_upload` tuples — the rows
that survive the email and birthday drops, in order. -/
def data_to_upload (df : List CsvRow) : List (String × String × Date) :=
  df.filterMap (fun r =>
    match r.email, r.birthday with
    | some e, some b => some (r.name, e, b)
    | _, _ => none)

/-- One iteration of the mock bulk loop's inner `for emp in
st.session_state.mock_employees` (src/index.py lines 188-195): update the
FIRST stored dict with this email in place (then `break`), or report
not-found. -/
def mock_upsert_row (name email : String) (birthday : Date) :
    List MockEmployee → Option (List MockEmployee)
  | [] => none
  | emp :: rest =>
    if emp.email = email then
      some ({ emp with name := name, birthday := birthday } :: rest)
    else
      match mock_upsert_row name email birthday rest with
      | some rest2 => some (emp :: rest2)
      | none => none

/-- The mock bulk loop of src/index.py lines 184-199, threading the
inserted/updated counters; `freshIds` supplies the uuid for each
insertion, indexed by how many insertions happened before it. -/
def bulk_mock_loop (freshIds : Nat → String) :
    List (String × String × Date) → List MockEmployee → Nat → Nat → Nat →
      Nat × Nat × List MockEmployee
  | [], mock, inserted, updated, _ => (inserted, updated, mock)
  | (name, email, bday) :: rest, mock, inserted, updated, fresh =>
    match mock_upsert_row name email bday mock with
    | some mock2 => bulk_mock_loop freshIds rest mock2 inserted (updated + 1) fresh
    | none =>
      bulk_mock_loop freshIds rest
        (mock ++ [⟨freshIds fresh, name, email, bday, 1900⟩]) (inserted + 1) updated (fresh + 1)

/-- Counts returned by `bulk_upload_csv`: inserted, updated, skipped. -/
structure BulkCounts where
  inserted : Nat
  updated : Nat
  skipped : Nat
  deriving DecidableEq, Repr

/-- src/index.py lines 159-202, `bulk_upload_csv`, mock branch.  An empty
DataFrame returns (0, 0, 0) at line 163.  Otherwise the rows that survive
the drops are upserted one by one, and the returned skipped count is
`len(df) - inserted_count - updated_count` (line 202) — where `df` has
already been reassigned to the FILTERED frame (lines 170-175), so the
dropped rows are not in `len(df)` and this term is always zero. -/
def bulk_upload_csv_mock (freshIds : Nat → String) (df : List CsvRow)
    (mock : List MockEmployee) : BulkCounts × List MockEmployee :=
  if df.isEmpty then
    (⟨0, 0, 0⟩, mock)
  else
    let rows := data_to_upload df
    let out := bulk_mock_loop freshIds rows mock 0 0 0
    (⟨out.1, out.2.1, rows.length - out.1 - out.2.1⟩, out.2.2)

/-- src/index.py lines 204-231, `bulk_upload_csv`, real branch.  The batch
statement uses a lone `VALUES %s` placeholder (the `execute_values` form)
but is run through `extras.execute_batch`, which formats each 3-tuple row
against that single placeholder; parameter interpolation therefore raises
on the first row, the except branch (lines 226-229) reports the error,
rolls back, and returns `(0, 0, len(data_to_upload))`.  When the filtered
row list is empty `execute_batch` executes nothing and the success path
returns `(len(data_to_upload), 0, 0) = (0, 0, 0)`, which coincides with
the expression below.  The table is unchanged either way. -/
def bulk_upload_csv_real (df : List CsvRow) (table : List Employee) :
    BulkCounts × List Employee :=
  if df.isEmpty then
    (⟨0, 0, 0⟩, table)
  else
    (⟨0, 0, (data_to_upload df).length⟩, table)

/-- src/index.py lines 270-290, `delete_employee`, mock branch (lines
272-275): keep the dicts whose name differs, return whether the length
shrank. -/
def delete_employee_mock (name : String) (mock : List MockEmployee) :
    List MockEmployee × Bool :=
  let remaining := mock.filter (fun emp => !decide (emp.name = name))
  (remaining, decide (remaining.length < mock.length))

/-- src/index.py lines 276-290, `delete_employee`, real branch: `DELETE
FROM employees WHERE name = %s` removes every row with that name,
`cursor.rowcount` is how many were removed, and the function returns
`rows_deleted > 0` after commit. -/
def delete_employee_real (name : String) (table : List Employee) :
    List Employee × Bool :=
  let rows_deleted := table.countP (fun r => decide (r.name = name))
  (table.filter (fun r => !decide (r.name = name)), decide (rows_deleted > 0))

/-- The durable database as the admin panel's startup sees it: whether the
`employees` table exists, and its rows if it does. -/
structure RealDbState where
  table_exists : Bool
  rows : List Employee
  deriving DecidableEq, Repr

/-- src/index.py lines 45-64, `init_real_db`.  Its docstring says
"Ensures the employees table exists with the required schema", but the
body contains no CREATE TABLE at all: it attempts a batch upsert that
references `data_to_upload` and `conn`, names defined nowhere in the
function (and the statements at lines 57-58 are mis-indented), so the body
raises, the except branch reports "Database initialization failed" and
rolls back.  The database is left exactly as it was and no success is
reported: `(state unchanged, False)`. -/
def init_real_db (s : RealDbState) : RealDbState × Bool :=
  (s, false)

/-- src/index.py lines 69-79: the startup secrets check.  If the session
is still in mock mode and a `database.url` secret exists, attempt the
connection; on success call `init_real_db` and switch `use_mock_db` to
False (the durable backend is used from then on); on failure, or with no
secret, stay in mock mode.  Result is (database state afterwards,
`use_mock_db` afterwards). -/
def startup_secret_check (secret_url : Option String) (connect_ok : String → Bool)
    (db : RealDbState) (use_mock_db : Bool) : RealDbState × Bool :=
  match secret_url with
  | none => (db, use_mock_db)
  | some url =>
    if use_mock_db && connect_ok url then
      ((init_real_db db).1, false)
    else
      (db, use_mock_db)

/-- A stored mock record for the upsert scenarios ("Jane Doe"). -/
def jane1 : MockEmployee := ⟨"id-1", "Jane Doe", "jane@example.com", ⟨1990, 5, 1⟩, 1900⟩

/-- The P5 batch: five parseable rows and two rows whose birthday failed
to parse (`none`, pandas NaT). -/
def csvP5 : List CsvRow :=
  [⟨"A", some "a@x.com", some ⟨2000, 1, 1⟩⟩,
   ⟨"B", some "b@x.com", some ⟨2000, 1, 2⟩⟩,
   ⟨"C", some "c@x.com", some ⟨2000, 1, 3⟩⟩,
   ⟨"Bad1", some "bad1@x.com", none⟩,
   ⟨"D", some "d@x.com", some ⟨2000, 1, 4⟩⟩,
   ⟨"Bad2", some "bad2@x.com", none⟩,
   ⟨"E", some "e@x.com", some ⟨2000, 1, 5⟩⟩]

theorem process_employees_no_fault (year : Int) (sendOk commitFault : Nat → Bool)
    (els : List Employee) (s : LoopState)
    (hp : s.pending = []) (hcf : ∀ e ∈ els, commitFault e.id = false) :
    process_employees year sendOk commitFault els s =
      { db := els.foldl (fun d e => if sendOk e.id then update_last_wished year e.id d else d) s.db,
        wishes_sent_count := s.wishes_sent_count + (els.filter (fun e => sendOk e.id)).length,
        sent := s.sent ++ ((els.filter (fun e => sendOk e.id)).map Employee.id),
        attempted := s.attempted ++ els.map Employee.id,
        commits := s.commits ++ ((els.filter (fun e => sendOk e.id)).map (fun e => [e.id])),
        pending := [],
        aborted := s.aborted } := by
  induction els generalizing s with
  | nil =>
    obtain ⟨db, c, sent, att, com, pend, ab⟩ := s
    simp only at hp
    subst hp
    simp [process_employees]
  | cons e rest ih =>
    have hce : commitFault e.id = false := hcf e (by simp)
    have hcr : ∀ x ∈ rest, commitFault x.id = false := fun x hx => hcf x (by simp [hx])
    by_cases hse : sendOk e.id = true
    · rw [process_employees]
      rw [if_pos (by simp [hse]), if_neg (by simp [hce])]
      rw [ih _ rfl hcr]
      simp only [hp, List.nil_append, commit_pending, List.foldl_cons, List.foldl_nil]
      simp [hse, List.filter_cons, List.append_assoc, Nat.add_assoc, Nat.add_comm,
        update_last_wished]
    · have hse' : sendOk e.id = false := by simpa using hse
      rw [process_employees]
      rw [if_neg (by simp [hse'])]
      rw [ih _ rfl hcr]
      simp [hse', List.filter_cons, List.append_assoc]

theorem foldl_update_eq_map (year : Int) (sendOk : Nat → Bool) (els db : List Employee) :
    els.foldl (fun d e => if sendOk e.id then update_last_wished year e.id d else d) db =
      db.map (fun x =>
        if els.any (fun e => sendOk e.id && decide (x.id = e.id)) then
          { x with last_wished_year := some year } else x) := by
  induction els generalizing db with
  | nil => simp
  | cons e rest ih =>
    rw [List.foldl_cons, ih]
    by_cases hse : sendOk e.id = true
    · rw [if_pos hse, update_last_wished, List.map_map]
      congr 1
      funext x
      by_cases hx : x.id = e.id
      · simp [Function.comp, hx, hse]
      · simp [Function.comp, hx, hse]
    · have hse' : sendOk e.id = false := by simpa using hse
      rw [if_neg hse]
      congr 1
      funext x
      simp [hse']

theorem run_no_fault (cfg : Config) (today : Date) (db : List Employee)
    (sendOk : Nat → Bool) (hcfg : configOk cfg = true) :
    run_birthday_wisher_demo cfg today db true true sendOk (fun _ => false) =
      { roster := db.map (fun x =>
          if (employees_to_wish today db).any (fun e => sendOk e.id && decide (x.id = e.id)) then
            { x with last_wished_year := some today.year } else x),
        wishes_sent_count := ((employees_to_wish today db).filter (fun e => sendOk e.id)).length,
        sent := ((employees_to_wish today db).filter (fun e => sendOk e.id)).map Employee.id,
        attempted := (employees_to_wish today db).map Employee.id,
        commits := ((employees_to_wish today db).filter (fun e => sendOk e.id)).map
          (fun e => [e.id]),
        db_opened := true, db_closed := true,
        smtp_opened := !(employees_to_wish today db).isEmpty,
        smtp_closed := !(employees_to_wish today db).isEmpty,
        config_error := false } := by
  rw [run_birthday_wisher_demo]
  rw [if_neg (by simp [hcfg])]
  rw [if_neg (by simp)]
  by_cases hemp : (employees_to_wish today db).isEmpty = true
  · have he : employees_to_wish today db = [] := by simpa using hemp
    simp [he]
  · have hemp' : (employees_to_wish today db).isEmpty = false := by simpa using hemp
    simp only [hemp', if_false, Bool.false_eq_true]
    rw [if_neg (by simp)]
    rw [process_employees_no_fault _ _ _ _ _ rfl (fun _ _ => rfl)]
    simp [foldl_update_eq_map]

theorem mem_employees_to_wish (today : Date) (db : List Employee) (e : Employee) :
    e ∈ employees_to_wish today db ↔
      e ∈ db ∧ e.birthday.month = today.month ∧ e.birthday.day = today.day ∧
        (e.last_wished_year = none ∨ e.last_wished_year ≠ some today.year) := by
  simp [employees_to_wish, List.mem_filter, and_assoc]


/-- C1: for every roster state and every `today`, the eligibility
selection returns exactly the records whose birthday month equals today's
month, whose birthday day equals today's day, and whose `last_wished_year`
is NULL or differs from the current year; in particular a record whose
`last_wished_year` already equals the current year is never selected. -/
theorem eligibility_selection_exact (today : Date) (db : List Employee) (e : Employee) :
    (e ∈ employees_to_wish today db ↔
      e ∈ db ∧ e.birthday.month = today.month ∧ e.birthday.day = today.day ∧
        (e.last_wished_year = none ∨ e.last_wished_year ≠ some today.year)) ∧
    (e.last_wished_year = some today.year → e ∉ employees_to_wish today db) := by
  refine ⟨mem_employees_to_wish today db e, fun hy hmem => ?_⟩
  rcases ((mem_employees_to_wish today db e).mp hmem).2.2.2 with h | h
  · rw [hy] at h; cases h
  · exact h hy

/-- C2: in any notifier run (with the nominal environment: valid
configuration, database and SMTP login reachable, no database fault), for
every selected record, `last_wished_year` is set to the current year in
the committed table if and only if `create_and_send_email` reported
success for that record, and each such update is committed individually
right after that record's send: the run's commit sequence is exactly one
singleton batch per successful send, in order. -/
theorem per_record_update_iff_send_success (cfg : Config) (today : Date)
    (db : List Employee) (sendOk : Nat → Bool)
    (hcfg : configOk cfg = true) (hids : (db.map Employee.id).Nodup) :
    (∀ e ∈ employees_to_wish today db,
      (marked_with
          (run_birthday_wisher_demo cfg today db true true sendOk (fun _ => false)).roster
          e.id today.year ↔ sendOk e.id = true)) ∧
    (run_birthday_wisher_demo cfg today db true true sendOk (fun _ => false)).commits =
      ((employees_to_wish today db).filter (fun e => sendOk e.id)).map (fun e => [e.id]) := by
  rw [run_no_fault cfg today db sendOk hcfg]
  refine ⟨fun e he => ?_, rfl⟩
  have hedb : e ∈ db := ((mem_employees_to_wish today db e).mp he).1
  constructor
  · rintro ⟨x, hxmem, hxid, hxl⟩
    by_contra hse
    have hse' : sendOk e.id = false := by simpa using hse
    obtain ⟨x0, hx0, hGx0⟩ := List.mem_map.mp hxmem
    have hidpres : x.id = x0.id := by
      by_cases hc : ((employees_to_wish today db).any
          (fun e2 => sendOk e2.id && decide (x0.id = e2.id))) = true
      · rw [if_pos hc] at hGx0; rw [← hGx0]
      · rw [if_neg hc] at hGx0; rw [← hGx0]
    have hid0 : x0.id = e.id := by rw [← hidpres, hxid]
    have hx0e : x0 = e := List.inj_on_of_nodup_map hids hx0 hedb hid0
    subst hx0e
    have hcond : ((employees_to_wish today db).any
        (fun e2 => sendOk e2.id && decide (x0.id = e2.id))) = false := by
      cases hc : ((employees_to_wish today db).any
          (fun e2 => sendOk e2.id && decide (x0.id = e2.id))) with
      | false => rfl
      | true =>
        obtain ⟨e2, he2, hb⟩ := List.any_eq_true.mp hc
        simp only [Bool.and_eq_true, decide_eq_true_eq] at hb
        obtain ⟨hb1, hb2⟩ := hb
        have he2db : e2 ∈ db := ((mem_employees_to_wish today db e2).mp he2).1
        have he2x0 : e2 = x0 := List.inj_on_of_nodup_map hids he2db hx0 hb2.symm
        rw [he2x0, hse'] at hb1
        simp at hb1
    rw [if_neg (by simp [hcond])] at hGx0
    subst hGx0
    rcases ((mem_employees_to_wish today db x0).mp he).2.2.2 with h | h
    · rw [hxl] at h; cases h
    · exact h hxl
  · intro hse
    refine ⟨{ e with last_wished_year := some today.year }, ?_, rfl, rfl⟩
    refine List.mem_map.mpr ⟨e, hedb, ?_⟩
    rw [if_pos (List.any_eq_true.mpr ⟨e, he, by simp [hse]⟩)]

theorem per_record_update_iff_send_success_witness :
    (∀ e ∈ employees_to_wish todayDemo dbDemo,
      (marked_with
          (run_birthday_wisher_demo cfgDemo todayDemo dbDemo true true sendOkDemo
            (fun _ => false)).roster
          e.id todayDemo.year ↔ sendOkDemo e.id = true)) ∧
    (run_birthday_wisher_demo cfgDemo todayDemo dbDemo true true sendOkDemo
        (fun _ => false)).commits =
      ((employees_to_wish todayDemo dbDemo).filter (fun e => sendOkDemo e.id)).map
        (fun e => [e.id]) :=
  per_record_update_iff_send_success cfgDemo todayDemo dbDemo sendOkDemo (by decide) (by decide)

theorem roster_entry_unchanged_of_send_failure (today : Date) (db : List Employee)
    (sendOk : Nat → Bool) (hids : (db.map Employee.id).Nodup)
    (e : Employee) (he : e ∈ employees_to_wish today db) (hse : sendOk e.id = false)
    (x : Employee)
    (hx : x ∈ db.map (fun y =>
      if (employees_to_wish today db).any (fun e2 => sendOk e2.id && decide (y.id = e2.id)) then
        { y with last_wished_year := some today.year } else y))
    (hxid : x.id = e.id) : x = e := by
  obtain ⟨x0, hx0, hGx0⟩ := List.mem_map.mp hx
  have hidpres : x.id = x0.id := by
    by_cases hc : ((employees_to_wish today db).any
        (fun e2 => sendOk e2.id && decide (x0.id = e2.id))) = true
    · rw [if_pos hc] at hGx0; rw [← hGx0]
    · rw [if_neg hc] at hGx0; rw [← hGx0]
  have hedb : e ∈ db := ((mem_employees_to_wish today db e).mp he).1
  have hx0e : x0 = e := List.inj_on_of_nodup_map hids hx0 hedb (by rw [← hidpres, hxid])
  subst hx0e
  have hcond : ((employees_to_wish today db).any
      (fun e2 => sendOk e2.id && decide (x0.id = e2.id))) = false := by
    cases hc : ((employees_to_wish today db).any
        (fun e2 => sendOk e2.id && decide (x0.id = e2.id))) with
    | false => rfl
    | true =>
      obtain ⟨e2, he2, hb⟩ := List.any_eq_true.mp hc
      simp only [Bool.and_eq_true, decide_eq_true_eq] at hb
      obtain ⟨hb1, hb2⟩ := hb
      have he2db : e2 ∈ db := ((mem_employees_to_wish today db e2).mp he2).1
      have he2x0 : e2 = x0 := List.inj_on_of_nodup_map hids he2db hx0 hb2.symm
      rw [he2x0, hse] at hb1
      simp at hb1
  rw [if_neg (by simp [hcond])] at hGx0
  exact hGx0.symm

/-- C3: a delivery failure for one recipient is isolated (nominal
environment, no database fault): the failed record's row is unchanged in
the committed table (the rollback undoes nothing for it), every eligible
record is attempted regardless of other records' outcomes, the loop runs
to completion (the mail session is still closed normally), and every
record whose send succeeded — earlier or later than any failure — is
marked wished. -/
theorem send_failure_isolated (cfg : Config) (today : Date) (db : List Employee)
    (sendOk : Nat → Bool)
    (hcfg : configOk cfg = true) (hids : (db.map Employee.id).Nodup) :
    (run_birthday_wisher_demo cfg today db true true sendOk (fun _ => false)).attempted =
        (employees_to_wish today db).map Employee.id ∧
    ((run_birthday_wisher_demo cfg today db true true sendOk (fun _ => false)).smtp_opened = true →
      (run_birthday_wisher_demo cfg today db true true sendOk (fun _ => false)).smtp_closed
        = true) ∧
    (∀ e ∈ employees_to_wish today db, sendOk e.id = false →
      ∀ x ∈ (run_birthday_wisher_demo cfg today db true true sendOk (fun _ => false)).roster,
        x.id = e.id → x.last_wished_year = e.last_wished_year) ∧
    (∀ a ∈ employees_to_wish today db, sendOk a.id = true →
      marked_with (run_birthday_wisher_demo cfg today db true true sendOk (fun _ => false)).roster
        a.id today.year) := by
  rw [run_no_fault cfg today db sendOk hcfg]
  refine ⟨rfl, fun h => h, fun e he hse x hx hxid => ?_, fun a ha hsa => ?_⟩
  · rw [roster_entry_unchanged_of_send_failure today db sendOk hids e he hse x hx hxid]
  · refine ⟨{ a with last_wished_year := some today.year },
      List.mem_map.mpr ⟨a, ((mem_employees_to_wish today db a).mp ha).1, ?_⟩, rfl, rfl⟩
    rw [if_pos (List.any_eq_true.mpr ⟨a, ha, by simp [hsa]⟩)]

theorem send_failure_isolated_witness :
    (run_birthday_wisher_demo cfgDemo todayDemo dbDemo true true sendOkDemo
        (fun _ => false)).attempted =
      (employees_to_wish todayDemo dbDemo).map Employee.id ∧
    ((run_birthday_wisher_demo cfgDemo todayDemo dbDemo true true sendOkDemo
        (fun _ => false)).smtp_opened = true →
      (run_birthday_wisher_demo cfgDemo todayDemo dbDemo true true sendOkDemo
        (fun _ => false)).smtp_closed = true) ∧
    (∀ e ∈ employees_to_wish todayDemo dbDemo, sendOkDemo e.id = false →
      ∀ x ∈ (run_birthday_wisher_demo cfgDemo todayDemo dbDemo true true sendOkDemo
          (fun _ => false)).roster,
        x.id = e.id → x.last_wished_year = e.last_wished_year) ∧
    (∀ a ∈ employees_to_wish todayDemo dbDemo, sendOkDemo a.id = true →
      marked_with (run_birthday_wisher_demo cfgDemo todayDemo dbDemo true true sendOkDemo
          (fun _ => false)).roster
        a.id todayDemo.year) :=
  send_failure_isolated cfgDemo todayDemo dbDemo sendOkDemo (by decide) (by decide)

/-- C6 counterexample: a concrete run in which the mail-transport session
is opened and never closed.  Every field of the configuration is present,
the database connects, SMTP login succeeds, the one send succeeds, but the
per-record `UPDATE`/`commit` raises: the exception escapes the loop to the
outer handler, `smtp_obj.quit()` (src/app.py line 141) never runs, and
only the database connection (closed by `db_connect`'s `finally`) is
released.  This refutes the claim that both resources are closed in every
run. -/
theorem smtp_session_leaked_on_db_fault :
    (run_birthday_wisher_demo cfgDemo todayDemo dbDemo true true (fun _ => true)
        (fun _ => true)).smtp_opened = true ∧
    (run_birthday_wisher_demo cfgDemo todayDemo dbDemo true true (fun _ => true)
        (fun _ => true)).smtp_closed = false ∧
    (run_birthday_wisher_demo cfgDemo todayDemo dbDemo true true (fun _ => true)
        (fun _ => true)).db_closed = true := by
  refine ⟨rfl, rfl, rfl⟩

/-- C6 (amended): the database connection, once opened, is always closed
before the job exits (the `with db_connect()` context manager guarantees
it on every path, exceptions included).  The mail-transport session,
however, is closed only on runs where no exception escapes after the
session is opened: per-recipient send failures are fine, but an exception
out of a per-record database update (or a login failure after the socket
opened) leaves the session unclosed. -/
theorem resources_closed_amended (cfg : Config) (today : Date) (db : List Employee)
    (connectOk loginOk : Bool) (sendOk commitFault : Nat → Bool) :
    ((run_birthday_wisher_demo cfg today db connectOk loginOk sendOk commitFault).db_opened
        = true →
      (run_birthday_wisher_demo cfg today db connectOk loginOk sendOk commitFault).db_closed
        = true) ∧
    (loginOk = true →
      (∀ e ∈ employees_to_wish today db, commitFault e.id = false) →
      (run_birthday_wisher_demo cfg today db connectOk loginOk sendOk commitFault).smtp_opened
        = true →
      (run_birthday_wisher_demo cfg today db connectOk loginOk sendOk commitFault).smtp_closed
        = true) := by
  by_cases h1 : configOk cfg = false
  · simp [run_birthday_wisher_demo, h1]
  · by_cases h2 : connectOk = false
    · simp [run_birthday_wisher_demo, h1, h2]
    · by_cases h3 : (employees_to_wish today db).isEmpty = true
      · simp [run_birthday_wisher_demo, h1, h2, h3]
      · by_cases h4 : loginOk = false
        · simp [run_birthday_wisher_demo, h1, h2, h3, h4]
        · have h2' : connectOk = true := by simpa using h2
          have h4' : loginOk = true := by simpa using h4
          subst h2'
          subst h4'
          constructor
          · intro _
            rw [run_birthday_wisher_demo, if_neg h1, if_neg (by simp)]
            simp only [h3, Bool.false_eq_true, if_false]
            rw [if_neg (by simp)]
          · intro _ hcf _
            rw [run_birthday_wisher_demo, if_neg h1, if_neg (by simp)]
            simp only [h3, Bool.false_eq_true, if_false]
            rw [if_neg (by simp)]
            rw [process_employees_no_fault _ _ _ _ _ rfl hcf]
            rfl

/-- C7: if any of the three required configuration values is absent (or
empty), the run returns at the line-83 guard: no database connection and
no mail session is ever opened, nothing is sent or attempted, the table is
unchanged, and the only output is the CRITICAL diagnostic. -/
theorem missing_config_aborts_before_io (cfg : Config) (today : Date) (db : List Employee)
    (connectOk loginOk : Bool) (sendOk commitFault : Nat → Bool)
    (h : configOk cfg = false) :
    run_birthday_wisher_demo cfg today db connectOk loginOk sendOk commitFault =
      ⟨db, 0, [], [], [], false, false, false, false, true⟩ := by
  rw [run_birthday_wisher_demo, if_pos h]

theorem missing_config_aborts_before_io_witness :
    run_birthday_wisher_demo cfgMissing todayDemo dbDemo true true (fun _ => true)
        (fun _ => false) =
      ⟨dbDemo, 0, [], [], [], false, false, false, false, true⟩ :=
  missing_config_aborts_before_io cfgMissing todayDemo dbDemo true true (fun _ => true)
    (fun _ => false) (by decide)

/-- C4 counterexample: with "Jane Doe" already stored under
jane@example.com in the in-memory store, a second upsert with the same
email and new name/birthday does NOT replace the record and does NOT
succeed — `add_employee`'s mock branch reports "already exists" and
returns False, leaving the store unchanged (src/index.py lines 131-133).
This refutes "that record's name and birthday are replaced in place ...
and the call succeeds ... identically on both backends". -/
theorem upsert_mock_rejects_existing_email :
    add_employee_mock "id-2" "Jane D." "jane@example.com" ⟨1990, 5, 2⟩ [jane1] =
      (false, [jane1]) := by decide

theorem countP_email_le_one (table : List Employee) (email : String)
    (h : (table.map Employee.email).Nodup) :
    table.countP (fun r => decide (r.email = email)) ≤ 1 := by
  induction table with
  | nil => simp
  | cons r t ih =>
    rw [List.map_cons, List.nodup_cons] at h
    obtain ⟨hr, ht⟩ := h
    rw [List.countP_cons]
    by_cases he : r.email = email
    · have hzero : t.countP (fun r => decide (r.email = email)) = 0 := by
        rw [List.countP_eq_zero]
        intro a ha hpa
        rw [decide_eq_true_eq] at hpa
        exact hr (List.mem_map.mpr ⟨a, ha, by rw [hpa, he]⟩)
      simp [he, hzero]
    · simpa [he] using ih ht

theorem add_employee_real_countP (newId : Nat) (name email : String) (bday : Date)
    (table : List Employee)
    (h : table.countP (fun r => decide (r.email = email)) ≤ 1) :
    ((add_employee_real newId name email bday table).2).countP
      (fun r => decide (r.email = email)) = 1 := by
  rw [add_employee_real]
  by_cases hc : table.any (fun r => decide (r.email = email)) = true
  · rw [if_pos hc]
    have hfun : ((fun r : Employee => decide (r.email = email)) ∘
        (fun r : Employee =>
          if r.email = email then { r with name := name, birthday := bday } else r)) =
        (fun r : Employee => decide (r.email = email)) := by
      funext r
      by_cases hre : r.email = email
      · simp [Function.comp, hre]
      · simp [Function.comp, hre]
    rw [List.countP_map, hfun]
    obtain ⟨r, hrm, hrp⟩ := List.any_eq_true.mp hc
    have hpos : 0 < table.countP (fun r => decide (r.email = email)) :=
      List.countP_pos_iff.mpr ⟨r, hrm, hrp⟩
    omega
  · rw [if_neg hc]
    have h0 : table.countP (fun r => decide (r.email = email)) = 0 := by
      rw [List.countP_eq_zero]
      intro a ha hpa
      exact hc (List.any_eq_true.mpr ⟨a, ha, hpa⟩)
    rw [List.countP_append, h0]
    simp

theorem add_employee_real_values (newId : Nat) (name email : String) (bday : Date)
    (table : List Employee) :
    ∀ r ∈ (add_employee_real newId name email bday table).2,
      r.email = email → r.name = name ∧ r.birthday = bday := by
  intro r hr hre
  rw [add_employee_real] at hr
  by_cases hc : table.any (fun r => decide (r.email = email)) = true
  · rw [if_pos hc] at hr
    obtain ⟨r0, hr0, hg⟩ := List.mem_map.mp hr
    by_cases h0 : r0.email = email
    · rw [if_pos h0] at hg
      rw [← hg]
      exact ⟨rfl, rfl⟩
    · rw [if_neg h0] at hg
      rw [← hg] at hre
      exact absurd hre h0
  · rw [if_neg hc] at hr
    rcases List.mem_append.mp hr with hmem | hmem
    · exact absurd (List.any_eq_true.mpr ⟨r, hmem, by simp [hre]⟩) hc
    · simp only [List.mem_singleton] at hmem
      rw [hmem]
      exact ⟨rfl, rfl⟩

/-- C4 (amended): on the durable backend, `add_employee` always reports
success and the `ON CONFLICT (email)` upsert keeps email the unique key:
after any two upserts with the same email (assuming the table's emails
were unique), exactly one stored record carries that email and it has the
second call's name and birthday.  On the in-memory backend only the
insert half of the contract holds: a new email is appended with the 1900
sentinel and the call succeeds, but an existing email is REJECTED — the
call returns False and the store is unchanged (no duplicate is created,
but the record keeps the first call's values instead of being replaced). -/
theorem upsert_contract_amended (freshId : String) (newId1 newId2 : Nat)
    (n1 n2 name email : String) (b1 b2 bday : Date)
    (mock : List MockEmployee) (table : List Employee)
    (hU : (table.map Employee.email).Nodup) :
    ((∃ emp ∈ mock, emp.email = email) →
      add_employee_mock freshId name email bday mock = (false, mock)) ∧
    ((∀ emp ∈ mock, emp.email ≠ email) →
      add_employee_mock freshId name email bday mock =
        (true, mock ++ [⟨freshId, name, email, bday, 1900⟩])) ∧
    (add_employee_real newId1 name email bday table).1 = true ∧
    (((add_employee_real newId2 n2 email b2
        (add_employee_real newId1 n1 email b1 table).2).2).countP
      (fun r => decide (r.email = email)) = 1) ∧
    (∀ r ∈ (add_employee_real newId2 n2 email b2
        (add_employee_real newId1 n1 email b1 table).2).2,
      r.email = email → r.name = n2 ∧ r.birthday = b2) := by
  refine ⟨?_, ?_, ?_, ?_, add_employee_real_values _ _ _ _ _⟩
  · rintro ⟨emp, hm, he⟩
    rw [add_employee_mock, if_pos (List.any_eq_true.mpr ⟨emp, hm, by simp [he]⟩)]
  · intro hall
    rw [add_employee_mock, if_neg ?_]
    intro hc
    obtain ⟨emp, hm, hp⟩ := List.any_eq_true.mp hc
    exact hall emp hm (by simpa using hp)
  · rw [add_employee_real]
    split <;> rfl
  · have h1 : table.countP (fun r => decide (r.email = email)) ≤ 1 :=
      countP_email_le_one table email hU
    have h2 := add_employee_real_countP newId1 n1 email b1 table h1
    exact add_employee_real_countP newId2 n2 email b2 _ (le_of_eq h2)

theorem upsert_contract_amended_witness :
    (((add_employee_real 6 "Jane D." "jane@example.com" ⟨1990, 5, 2⟩
        (add_employee_real 5 "Jane Doe" "jane@example.com" ⟨1990, 5, 1⟩ []).2).2).countP
      (fun r => decide (r.email = "jane@example.com")) = 1) := by
  have h := upsert_contract_amended "id-9" 5 6 "Jane Doe" "Jane D." "X" "jane@example.com"
    ⟨1990, 5, 1⟩ ⟨1990, 5, 2⟩ ⟨1990, 5, 3⟩ [jane1] [] (by simp)
  exact h.2.2.2.1

/-- C5: evaluating `bulk_upload_csv` at the P5 batch (five parseable rows,
two rows with unparseable dates) against an empty store.  The five valid
rows are indeed all processed (five records stored by the mock backend),
but the returned counts are (5 inserted, 0 updated, 0 skipped) — the
skipped slot is computed from the already-filtered frame and cannot report
the two dropped rows, where the claim requires 2 skips.  On the real
backend the malformed batch statement fails every row: the counts are
(0, 0, 5) and nothing at all is written. -/
theorem bulk_counts_at_p5_batch :
    (bulk_upload_csv_mock (fun _ => "fresh") csvP5 []).1 = ⟨5, 0, 0⟩ ∧
    (bulk_upload_csv_mock (fun _ => "fresh") csvP5 []).2.length = 5 ∧
    (bulk_upload_csv_real csvP5 []).1 = ⟨0, 0, 5⟩ := by
  decide

theorem length_filter_not {α : Type} (p : α → Bool) (l : List α) :
    (l.filter (fun a => !p a)).length = l.length - l.countP p := by
  induction l with
  | nil => simp
  | cons a t ih =>
    have hle : t.countP p ≤ t.length := List.countP_le_length p
    by_cases hpa : p a = true
    · simp [List.filter_cons, List.countP_cons, hpa, ih]
    · have hpa' : p a = false := by simpa using hpa
      simp [List.filter_cons, List.countP_cons, hpa', ih]
      omega

/-- C8: `delete_employee` returns True exactly when at least one record
with that name existed (and was removed); with no match it returns False
and leaves the store untouched; with matches the store shrinks by exactly
the number of matching records.  Both backends. -/
theorem delete_by_name_contract (name : String) (mock : List MockEmployee)
    (table : List Employee) :
    ((delete_employee_mock name mock).2 = true ↔ ∃ emp ∈ mock, emp.name = name) ∧
    ((∀ emp ∈ mock, emp.name ≠ name) → delete_employee_mock name mock = (mock, false)) ∧
    ((delete_employee_mock name mock).1.length =
      mock.length - mock.countP (fun emp => decide (emp.name = name))) ∧
    ((delete_employee_real name table).2 = true ↔ ∃ r ∈ table, r.name = name) ∧
    ((∀ r ∈ table, r.name ≠ name) → delete_employee_real name table = (table, false)) ∧
    ((delete_employee_real name table).1.length =
      table.length - table.countP (fun r => decide (r.name = name))) := by
  have hmock_len : (delete_employee_mock name mock).1.length =
      mock.length - mock.countP (fun emp => decide (emp.name = name)) :=
    length_filter_not _ mock
  have hreal_len : (delete_employee_real name table).1.length =
      table.length - table.countP (fun r => decide (r.name = name)) :=
    length_filter_not _ table
  have hmock_cle : mock.countP (fun emp => decide (emp.name = name)) ≤ mock.length :=
    List.countP_le_length _
  refine ⟨?_, ?_, hmock_len, ?_, ?_, hreal_len⟩
  · rw [delete_employee_mock]
    simp only [decide_eq_true_eq]
    rw [length_filter_not _ mock]
    constructor
    · intro hlt
      have hpos : 0 < mock.countP (fun emp => decide (emp.name = name)) := by omega
      obtain ⟨emp, hm, hp⟩ := List.countP_pos_iff.mp hpos
      exact ⟨emp, hm, by simpa using hp⟩
    · rintro ⟨emp, hm, he⟩
      have hpos : 0 < mock.countP (fun emp => decide (emp.name = name)) :=
        List.countP_pos_iff.mpr ⟨emp, hm, by simp [he]⟩
      omega
  · intro hall
    rw [delete_employee_mock]
    have hkeep : mock.filter (fun emp => !decide (emp.name = name)) = mock :=
      List.filter_eq_self.mpr (fun emp hm => by simp [hall emp hm])
    rw [hkeep]
    simp
  · rw [delete_employee_real]
    simp only [decide_eq_true_eq]
    constructor
    · intro hpos
      obtain ⟨r, hm, hp⟩ := List.countP_pos_iff.mp hpos
      exact ⟨r, hm, by simpa using hp⟩
    · rintro ⟨r, hm, he⟩
      exact List.countP_pos_iff.mpr ⟨r, hm, by simp [he]⟩
  · intro hall
    rw [delete_employee_real]
    have hkeep : table.filter (fun r => !decide (r.name = name)) = table :=
      List.filter_eq_self.mpr (fun r hm => by simp [hall r hm])
    have hzero : table.countP (fun r => decide (r.name = name)) = 0 := by
      rw [List.countP_eq_zero]
      intro r hm hp
      exact hall r hm (by simpa using hp)
    rw [hkeep, hzero]
    simp

/-- C10: `delete_employee` deletes by name, and removes EVERY record whose
name equals the argument — on the mock backend the list comprehension
keeps only the non-matching dicts, and on the real backend `DELETE FROM
employees WHERE name = %s` removes all matching rows — while every
non-matching record survives.  So when several records share the name
(email, not name, is the uniqueness key) one call removes them all. -/
theorem delete_by_name_removes_all (name : String) (mock : List MockEmployee)
    (table : List Employee) :
    (∀ emp ∈ (delete_employee_mock name mock).1, emp.name ≠ name) ∧
    (∀ emp ∈ mock, emp.name ≠ name → emp ∈ (delete_employee_mock name mock).1) ∧
    (∀ r ∈ (delete_employee_real name table).1, r.name ≠ name) ∧
    (∀ r ∈ table, r.name ≠ name → r ∈ (delete_employee_real name table).1) := by
  refine ⟨?_, ?_, ?_, ?_⟩
  · intro emp hm
    rw [delete_employee_mock] at hm
    have := (List.mem_filter.mp hm).2
    simpa using this
  · intro emp hm hne
    rw [delete_employee_mock]
    exact List.mem_filter.mpr ⟨hm, by simpa using hne⟩
  · intro r hm
    rw [delete_employee_real] at hm
    have := (List.mem_filter.mp hm).2
    simpa using this
  · intro r hm hne
    rw [delete_employee_real]
    exact List.mem_filter.mpr ⟨hm, by simpa using hne⟩

/-- C9: at startup, with a trusted `database.url` secret whose connection
succeeds, the session does switch to the durable backend (`use_mock_db`
becomes False) — but the "initialization" step creates nothing: starting
from a database in which the employees table does not exist, the table
still does not exist afterwards, because `init_real_db` contains no CREATE
TABLE (its body is a broken batch upsert over undefined names that lands
in the except/rollback branch), contradicting the claim and the function's
own docstring. -/
theorem startup_initialization_creates_no_table :
    startup_secret_check (some "postgresql://user@host/db") (fun _ => true)
        ⟨false, []⟩ true = (⟨false, []⟩, false) ∧
    init_real_db ⟨false, []⟩ = (⟨false, []⟩, false) :=
  ⟨rfl, rfl⟩
